import Mathlib

/-!
Shallow embedding of the oauth2-pkce-client core (src/core/OAuth2Service.ts,
src/utils/crypto.ts, src/utils/storage.ts, src/utils/url.ts).

Modelling conventions:
* The external key-value storage (JS `Storage` seen through `TokenStorage`)
  is modelled as a record `Store` with one `Option` field per logical key.
  `expires_at` is physically a stringified integer; `setExpiresAt` /
  `getExpiresAt` round-trip integers exactly, so it is modelled as
  `Option Int` directly.
* JavaScript truthiness tests (`if (x)`) on strings and numbers are modelled
  by `truthyS` / `truthyI`: `null`/`undefined` and the empty string and the
  number 0 are falsy, everything else truthy.
* The network (`fetch` inside `makeTokenRequest`) is an external
  collaborator; its outcome is a parameter `net : Except OAuth2ErrorR
  TokenResponse` (`.error` covers a non-ok HTTP response whose body parsed
  to an OAuth2 error object).
* `Date.now()` is a parameter `now : Int`.
* The platform primitives `crypto.getRandomValues` and
  `crypto.subtle.digest` are parameters (`rnd : Nat → Nat` giving the byte
  at each index, and `sha256Fn : String → List Nat` giving the digest bytes).
* Collaborator callbacks `onAuthStateChange` / `onTokenRefresh` are modelled
  by the list of `Event`s an operation emits, in invocation order.
* Browser-only effects with no bearing on the claims (assigning
  `window.location.href`, `window.history.replaceState`, the `setTimeout`
  refresh timer handle) are not modelled.
-/

/-- JavaScript truthiness of a nullable string: `null`/`undefined` and `""` are falsy. -/
def truthyS : Option String → Bool
  | none => false
  | some s => s != ""

/-- JavaScript truthiness of a nullable number: `null`/`undefined` and `0` are falsy. -/
def truthyI : Option Int → Bool
  | none => false
  | some n => n != 0

/-- The seven logical storage keys of `TokenStorage` (src/utils/storage.ts),
one `Option` field per prefixed key; `none` models an absent key. -/
structure Store where
  access_token : Option String := none
  refresh_token : Option String := none
  id_token : Option String := none
  expires_at : Option Int := none
  scope : Option String := none
  code_verifier : Option String := none
  state : Option String := none
deriving Repr, DecidableEq

/-- A storage with no keys set (first run / externally cleared). -/
def Store.empty : Store := {}

/-- Embeds `TokenStorage.clear`: removes every key of `STORAGE_KEYS`. -/
def Store.clear (_ : Store) : Store := {}

/-- Embeds `TokenStorage.clearTemporary`: removes only `code_verifier` and `state`. -/
def Store.clearTemporary (st : Store) : Store :=
  { st with code_verifier := none, state := none }

def Store.setAccessToken (st : Store) (t : String) : Store := { st with access_token := some t }

def Store.setRefreshToken (st : Store) (t : String) : Store := { st with refresh_token := some t }

def Store.setIdToken (st : Store) (t : String) : Store := { st with id_token := some t }

def Store.setExpiresAt (st : Store) (e : Int) : Store := { st with expires_at := some e }

def Store.setScope (st : Store) (s : String) : Store := { st with scope := some s }

def Store.setCodeVerifier (st : Store) (v : String) : Store := { st with code_verifier := some v }

def Store.setState (st : Store) (s : String) : Store := { st with state := some s }

/-- Embeds `TokenResponse` (src/core/types.ts): the parsed JSON of a successful
token-endpoint response. Optional JSON members are `Option`. -/
structure TokenResponse where
  access_token : String
  token_type : String := ""
  expires_in : Option Int := none
  refresh_token : Option String := none
  scope : Option String := none
  id_token : Option String := none
deriving Repr, DecidableEq

/-- Embeds `OAuth2Error` (src/core/types.ts): the OAuth2 error object. -/
structure OAuth2ErrorR where
  error : String
  error_description : Option String := none
  error_uri : Option String := none
deriving Repr, DecidableEq

/-- Collaborator callback invocations, in order:
`onAuthStateChange(b)` and `onTokenRefresh(tokens)`. -/
inductive Event where
  | authStateChange (isAuth : Bool)
  | tokenRefresh (tokens : TokenResponse)
deriving Repr, DecidableEq

/-- Embeds `OAuth2Service.storeTokens` (OAuth2Service.ts lines 216-235): always
overwrites the access token; the other keys only under a JS truthiness guard;
`expires_at := Date.now() + expires_in * 1000` only when `expires_in` is truthy. -/
def storeTokens (now : Int) (tokens : TokenResponse) (st : Store) : Store :=
  let s1 := st.setAccessToken tokens.access_token
  let s2 := if truthyS tokens.refresh_token then s1.setRefreshToken (tokens.refresh_token.getD "") else s1
  let s3 := if truthyS tokens.id_token then s2.setIdToken (tokens.id_token.getD "") else s2
  let s4 := if truthyS tokens.scope then s3.setScope (tokens.scope.getD "") else s3
  if truthyI tokens.expires_in then s4.setExpiresAt (now + tokens.expires_in.getD 0 * 1000) else s4

/-- Embeds `OAuth2Service.logout` (lines 330-352): clears the refresh timer, clears
all storage keys, and always invokes `onAuthStateChange(false)`. The optional
redirect handoff is a pure browser navigation effect and is not modelled. -/
def logout (st : Store) : Store × List Event :=
  (st.clear, [Event.authStateChange false])

/-- Embeds `OAuth2Service.getAccessToken` (lines 269-280): reads token and expiry;
if both are truthy and `Date.now() >= expiresAt`, performs `logout()` and
returns `null`; otherwise returns the stored token unchanged. Result:
(returned value, storage afterwards, callback events). -/
def getAccessToken (now : Int) (st : Store) : Option String × Store × List Event :=
  let token := st.access_token
  let expiresAt := st.expires_at
  if truthyS token && truthyI expiresAt && decide (expiresAt.getD 0 ≤ now) then
    let lo := logout st
    (none, lo.1, lo.2)
  else
    (token, st, [])

/-- Embeds `OAuth2Service.isAuthenticated` (lines 306-309): `!!this.getAccessToken()`. -/
def isAuthenticated (now : Int) (st : Store) : Bool × Store × List Event :=
  let r := getAccessToken now st
  (truthyS r.1, r.2.1, r.2.2)

/-! ### Crypto utilities (src/utils/crypto.ts) -/

/-- The character set of `generateRandomString` (crypto.ts line 9). -/
def charset : List Char :=
  "ABCDEFGHIJKLMNOPQRSTUVWXYZabcdefghijklmnopqrstuvwxyz0123456789-._~".toList

/-- Embeds `generateRandomString` (crypto.ts lines 8-14) as a character list: byte `i`
of the platform random source is `rnd i`; each byte is mapped into `charset`
by modulo. -/
def generateRandomChars (length : Nat) (rnd : Nat → Nat) : List Char :=
  (List.range length).map (fun i => charset.getD (rnd i % charset.length) 'A')

/-- Embeds `generateRandomString` (crypto.ts lines 8-14). -/
def generateRandomString (length : Nat) (rnd : Nat → Nat) : String :=
  String.mk (generateRandomChars length rnd)

/-- The standard base64 alphabet used by `btoa`. -/
def b64StdAlphabet : List Char :=
  "ABCDEFGHIJKLMNOPQRSTUVWXYZabcdefghijklmnopqrstuvwxyz0123456789+/".toList

def b64StdChar (n : Nat) : Char := b64StdAlphabet.getD n 'A'

/-- The base64url alphabet (RFC 4648 §5), for the spec-side encoder. -/
def b64UrlAlphabet : List Char :=
  "ABCDEFGHIJKLMNOPQRSTUVWXYZabcdefghijklmnopqrstuvwxyz0123456789-_".toList

def b64UrlChar (n : Nat) : Char := b64UrlAlphabet.getD n 'A'

/-- Embeds `btoa` applied to the byte string built in `base64UrlEncode`
(crypto.ts lines 28-39): standard base64 with `=` padding, three input
bytes per four output characters. Bit arithmetic is written with `/` and `%`:
`b >>> 2 = b / 4`, `(b & 3) << 4 = b % 4 * 16`, and so on. -/
def btoaChunks : List Nat → List Char
  | b1 :: b2 :: b3 :: rest =>
      b64StdChar (b1 / 4) :: b64StdChar (b1 % 4 * 16 + b2 / 16) ::
        b64StdChar (b2 % 16 * 4 + b3 / 64) :: b64StdChar (b3 % 64) :: btoaChunks rest
  | [b1, b2] => [b64StdChar (b1 / 4), b64StdChar (b1 % 4 * 16 + b2 / 16), b64StdChar (b2 % 16 * 4), '=']
  | [b1] => [b64StdChar (b1 / 4), b64StdChar (b1 % 4 * 16), '=', '=']
  | [] => []

/-- Embeds `base64UrlEncode` (crypto.ts lines 28-39) on the digest bytes:
`btoa(...).replace(/\+/g, '-').replace(/\x2f/g, '_').replace(/=/g, '')`. -/
def base64UrlEncodeChars (bytes : List Nat) : List Char :=
  (((btoaChunks bytes).map (fun c => if c = '+' then '-' else c)).map
      (fun c => if c = '/' then '_' else c)).filter (fun c => c != '=')

/-- Embeds `base64UrlEncode` (crypto.ts lines 28-39), as a string. -/
def base64UrlEncode (bytes : List Nat) : String :=
  String.mk (base64UrlEncodeChars bytes)

/-- Spec-side encoder, for the refinement comparison in C7. Modelled from the
spec words "base64url-encodes without padding": direct RFC 4648 §5 base64url,
no `=` padding appended. -/
def base64UrlNoPad : List Nat → List Char
  | b1 :: b2 :: b3 :: rest =>
      b64UrlChar (b1 / 4) :: b64UrlChar (b1 % 4 * 16 + b2 / 16) ::
        b64UrlChar (b2 % 16 * 4 + b3 / 64) :: b64UrlChar (b3 % 64) :: base64UrlNoPad rest
  | [b1, b2] => [b64UrlChar (b1 / 4), b64UrlChar (b1 % 4 * 16 + b2 / 16), b64UrlChar (b2 % 16 * 4)]
  | [b1] => [b64UrlChar (b1 / 4), b64UrlChar (b1 % 4 * 16)]
  | [] => []

/-- Embeds `generatePKCEParams` (crypto.ts lines 44-53): verifier is a fresh
128-character random string; challenge is `base64UrlEncode(sha256(verifier))`.
The platform SHA-256 (`crypto.subtle.digest`) is the parameter `sha256Fn`,
returning the 32 digest bytes. Result: `(codeVerifier, codeChallenge)`. -/
def generatePKCEParams (rnd : Nat → Nat) (sha256Fn : String → List Nat) : String × String :=
  let codeVerifier := generateRandomString 128 rnd
  let hashed := sha256Fn codeVerifier
  let codeChallenge := base64UrlEncode hashed
  (codeVerifier, codeChallenge)

/-- Embeds `validateState` (crypto.ts lines 58-59): `received === stored &&
received.length > 0`, where a missing `received` compares unequal. -/
def validateState (received : Option String) (stored : String) : Bool :=
  match received with
  | none => false
  | some r => r == stored && decide (0 < r.length)

/-- The unreserved character set of RFC 3986 / RFC 7636 (A-Z, a-z, 0-9,
hyphen, period, underscore, tilde), as named by the claim C7. -/
def isUnreserved (c : Char) : Bool :=
  (decide ('A' ≤ c) && decide (c ≤ 'Z')) || (decide ('a' ≤ c) && decide (c ≤ 'z')) ||
    (decide ('0' ≤ c) && decide (c ≤ '9')) || c == '-' || c == '.' || c == '_' || c == '~'

/-! ### URL utilities (src/utils/url.ts) -/

/-- A built URL, split into its base and its query parameters in append
order (`url.searchParams.append` percent-encoding is not modelled; the
claims are about which parameters the URL carries). -/
structure UrlParts where
  base : String
  query : List (String × String)
deriving Repr, DecidableEq

/-- Embeds `buildUrl` (url.ts lines 29-37): appends every entry whose value is not
`undefined`, in object-entry order. -/
def buildUrl (baseUrl : String) (params : List (String × Option String)) : UrlParts :=
  { base := baseUrl
    query := params.filterMap (fun p => p.2.map (fun v => (p.1, v))) }

/-- First value bound to key `k` in an entry list. -/
def lookupParam (ps : List (String × String)) (k : String) : Option String :=
  (ps.find? (fun p => p.1 == k)).map (fun p => p.2)

/-- JavaScript object-spread merge `{ ...base, ...extra }` for string-keyed
records: a key of `base` keeps its position but takes `extra`'s value when
`extra` also binds it; keys only in `extra` are appended in `extra`'s order. -/
def jsMerge (base extra : List (String × String)) : List (String × String) :=
  base.map (fun p => (p.1, (lookupParam extra p.1).getD p.2)) ++
    extra.filter (fun p => (lookupParam base p.1).isNone)

/-! ### OAuth2Service operations (src/core/OAuth2Service.ts) -/

/-- The configuration fields `authorize` uses, after the constructor merged
defaults (`scope` defaults to the empty string). -/
structure Config where
  clientId : String
  authorizationEndpoint : String
  tokenEndpoint : String
  redirectUri : String
  scope : String := ""
deriving Repr, DecidableEq

structure AuthorizeResult where
  url : UrlParts
  store : Store
deriving Repr, DecidableEq

/-- Embeds `OAuth2Service.authorize` (lines 56-86): generates a fresh PKCE pair and
a 32-character state, persists verifier and state, builds the parameter
object with `...additionalParams` spread last, and builds the authorization
URL. The final `window.location.href` assignment is the unmodelled redirect;
the built URL and the storage afterwards are returned. -/
def authorize (cfg : Config) (additionalParams : List (String × String))
    (rndVerifier rndState : Nat → Nat) (sha256Fn : String → List Nat)
    (st : Store) : AuthorizeResult :=
  let pkce := generatePKCEParams rndVerifier sha256Fn
  let codeVerifier := pkce.1
  let codeChallenge := pkce.2
  let state := generateRandomString 32 rndState
  let st1 := st.setCodeVerifier codeVerifier
  let st2 := st1.setState state
  let params : List (String × String) :=
    jsMerge
      [("response_type", "code"),
       ("client_id", cfg.clientId),
       ("redirect_uri", cfg.redirectUri),
       ("scope", cfg.scope),
       ("state", state),
       ("code_challenge", codeChallenge),
       ("code_challenge_method", "S256")]
      additionalParams
  { url := buildUrl cfg.authorizationEndpoint (params.map (fun p => (p.1, some p.2)))
    store := st2 }

/-- The query parameters `parseQueryParams` extracts from a callback URL;
each field is `none` when the URL lacks that parameter. -/
structure CallbackParams where
  error : Option String := none
  error_description : Option String := none
  error_uri : Option String := none
  code : Option String := none
  state : Option String := none
deriving Repr, DecidableEq

/-- The distinct failure exits of `handleCallback` (lines 91-130). -/
inductive CallbackError where
  | oauthError (e : OAuth2ErrorR)
  | invalidState
  | missingCodeOrVerifier
  | exchangeFailed (e : OAuth2ErrorR)
deriving Repr, DecidableEq

/-- Embeds `OAuth2Service.exchangeCodeForToken` (lines 135-148): sends the token
request (outcome `net`); on success stores the tokens, reschedules the
refresh timer and invokes `onAuthStateChange(true)`; on failure the thrown
error propagates with no storage change. -/
def exchangeCodeForToken (now : Int) (net : Except OAuth2ErrorR TokenResponse)
    (st : Store) : Except OAuth2ErrorR Store × List Event :=
  match net with
  | .ok tokens => (.ok (storeTokens now tokens st), [Event.authStateChange true])
  | .error e => (.error e, [])

structure CallbackRun where
  result : Except CallbackError Unit
  store : Store
  events : List Event
  tokenRequests : Nat
deriving Repr

/-- Embeds `OAuth2Service.handleCallback` (lines 91-130), with the parsed query
parameters and the would-be token-endpoint outcome as inputs. Traced from
the source: an `error` parameter throws first; then the stored state must be
truthy and `validateState` must accept; then `code` and the stored verifier
must be truthy; then the exchange runs, and only after a successful exchange
is `clearTemporary()` reached. Every throw lands in the catch block, which
logs and rethrows. `tokenRequests` counts token-endpoint requests sent. -/
def handleCallback (now : Int) (params : CallbackParams)
    (net : Except OAuth2ErrorR TokenResponse) (st : Store) : CallbackRun :=
  if truthyS params.error then
    { result := .error (.oauthError
        { error := params.error.getD ""
          error_description := params.error_description
          error_uri := params.error_uri })
      store := st, events := [], tokenRequests := 0 }
  else if !truthyS st.state || !validateState params.state (st.state.getD "") then
    { result := .error .invalidState, store := st, events := [], tokenRequests := 0 }
  else if !truthyS params.code || !truthyS st.code_verifier then
    { result := .error .missingCodeOrVerifier, store := st, events := [], tokenRequests := 0 }
  else
    match exchangeCodeForToken now net st with
    | (.ok st2, evs) =>
        { result := .ok (), store := st2.clearTemporary, events := evs, tokenRequests := 1 }
    | (.error e, evs) =>
        { result := .error (.exchangeFailed e), store := st, events := evs, tokenRequests := 1 }

/-- The failure exits of `performRefresh` (lines 168-191). -/
inductive RefreshError where
  | noRefreshToken
  | exchangeFailed (e : OAuth2ErrorR)
deriving Repr, DecidableEq

structure RefreshRun where
  result : Except RefreshError Unit
  store : Store
  events : List Event
  tokenRequests : Nat
deriving Repr

/-- Embeds `OAuth2Service.performRefresh` (lines 168-191): a missing (falsy) stored
refresh token throws before any request; otherwise the refresh request is
sent; on success the tokens are stored, the timer rescheduled and
`onTokenRefresh(tokens)` invoked; on failure `logout()` runs (clearing the
session and invoking `onAuthStateChange(false)`) and the error is rethrown. -/
def performRefresh (now : Int) (net : Except OAuth2ErrorR TokenResponse)
    (st : Store) : RefreshRun :=
  let refreshToken := st.refresh_token
  if !truthyS refreshToken then
    { result := .error .noRefreshToken, store := st, events := [], tokenRequests := 0 }
  else
    match net with
    | .ok tokens =>
        { result := .ok (), store := storeTokens now tokens st
          events := [Event.tokenRefresh tokens], tokenRequests := 1 }
    | .error e =>
        let lo := logout st
        { result := .error (.exchangeFailed e), store := lo.1
          events := lo.2, tokenRequests := 1 }

/-! ### Refresh deduplication (lines 153-166)

`refreshAccessToken` runs synchronously from its entry to the first `await`:
it reads `this.refreshPromise`, and either returns the in-flight promise or
assigns a new one before yielding. On the single-threaded event loop this
check-and-set prefix is atomic, so it is modelled as one step on the
service state. Promises are identified by `Nat` ids. -/

structure RefreshMutex where
  store : Store
  refreshPromise : Option Nat
deriving Repr, DecidableEq

/-- The synchronous prefix of `refreshAccessToken` (lines 155-159): with a
promise in flight the caller awaits that same promise and starts nothing;
otherwise a fresh `performRefresh()` promise is created and recorded.
Returns (service state afterwards, id of the promise this caller awaits,
whether this call started a new `performRefresh`). -/
def refreshCallStep (svc : RefreshMutex) (freshId : Nat) : RefreshMutex × Nat × Bool :=
  match svc.refreshPromise with
  | some pid => (svc, pid, false)
  | none => ({ svc with refreshPromise := some freshId }, freshId, true)

/-- The `finally` block of `refreshAccessToken` (lines 163-165): once the
awaited outcome — success or failure — is known, the in-flight marker is
cleared. -/
def refreshSettle (svc : RefreshMutex) : RefreshMutex :=
  { svc with refreshPromise := none }

/-! ### Helper lemmas -/

lemma charset_length : charset.length = 66 := by decide

lemma charsetChar_unreserved : ∀ n : Nat, n < 66 → isUnreserved (charset.getD n 'A') = true := by
  decide

lemma generateRandomChars_length (len : Nat) (rnd : Nat → Nat) :
    (generateRandomChars len rnd).length = len := by
  simp [generateRandomChars]

lemma generateRandomChars_unreserved (len : Nat) (rnd : Nat → Nat) :
    ∀ c ∈ generateRandomChars len rnd, isUnreserved c = true := by
  intro c hc
  simp only [generateRandomChars, List.mem_map] at hc
  obtain ⟨i, _, rfl⟩ := hc
  rw [charset_length]
  exact charsetChar_unreserved _ (Nat.mod_lt _ (by norm_num))

lemma urlSafe_std : ∀ n : Nat, n < 64 →
    (if (if b64StdChar n = '+' then '-' else b64StdChar n) = '/' then '_'
     else (if b64StdChar n = '+' then '-' else b64StdChar n)) = b64UrlChar n := by decide

lemma b64UrlChar_ne_pad : ∀ n : Nat, n < 64 → (b64UrlChar n != '=') = true := by decide

lemma pipeline_cons (k : Nat) (hk : k < 64) (l : List Char) :
    (((b64StdChar k :: l).map (fun c => if c = '+' then '-' else c)).map
        (fun c => if c = '/' then '_' else c)).filter (fun c => c != '=') =
      b64UrlChar k ::
        ((l.map (fun c => if c = '+' then '-' else c)).map
            (fun c => if c = '/' then '_' else c)).filter (fun c => c != '=') := by
  simp only [List.map_cons, List.filter_cons]
  rw [urlSafe_std k hk]
  simp [b64UrlChar_ne_pad k hk]

lemma pipeline_pad (l : List Char) :
    ((('=' :: l).map (fun c => if c = '+' then '-' else c)).map
        (fun c => if c = '/' then '_' else c)).filter (fun c => c != '=') =
      ((l.map (fun c => if c = '+' then '-' else c)).map
          (fun c => if c = '/' then '_' else c)).filter (fun c => c != '=') := by
  simp [List.map_cons, List.filter_cons]

/-- The refinement at the heart of C7: stripping `=` from `btoa` output with
`+` and `/` substituted equals direct unpadded base64url encoding. -/
lemma base64Url_refines : ∀ bytes : List Nat, (∀ b ∈ bytes, b < 256) →
    base64UrlEncodeChars bytes = base64UrlNoPad bytes := by
  intro bytes
  induction bytes using btoaChunks.induct with
  | case1 b1 b2 b3 rest ih =>
      intro h
      have h1 : b1 < 256 := h b1 (by simp)
      have h2 : b2 < 256 := h b2 (by simp)
      have h3 : b3 < 256 := h b3 (by simp)
      unfold base64UrlEncodeChars at *
      rw [btoaChunks, base64UrlNoPad]
      rw [pipeline_cons _ (by omega), pipeline_cons _ (by omega),
          pipeline_cons _ (by omega), pipeline_cons _ (by omega)]
      rw [ih (fun b hb => h b (by simp [hb]))]
  | case2 b1 b2 =>
      intro h
      have h1 : b1 < 256 := h b1 (by simp)
      have h2 : b2 < 256 := h b2 (by simp)
      unfold base64UrlEncodeChars
      rw [btoaChunks, base64UrlNoPad]
      rw [pipeline_cons _ (by omega), pipeline_cons _ (by omega), pipeline_cons _ (by omega)]
      rw [pipeline_pad]
      simp
  | case3 b1 =>
      intro h
      have h1 : b1 < 256 := h b1 (by simp)
      unfold base64UrlEncodeChars
      rw [btoaChunks, base64UrlNoPad]
      rw [pipeline_cons _ (by omega), pipeline_cons _ (by omega)]
      rw [pipeline_pad, pipeline_pad]
      simp
  | case4 =>
      intro _
      rfl

lemma base64UrlEncodeChars_no_pad (bytes : List Nat) : '=' ∉ base64UrlEncodeChars bytes := by
  intro hmem
  simp [base64UrlEncodeChars, List.mem_filter] at hmem

lemma lookupParam_eq_none (ps : List (String × String)) (k : String) :
    lookupParam ps k = none ↔ ∀ x ∈ ps, ¬(x.1 == k) = true := by
  unfold lookupParam
  rw [Option.map_eq_none']
  exact List.find?_eq_none

lemma lookupParam_append (l1 l2 : List (String × String)) (k : String) :
    lookupParam (l1 ++ l2) k = (lookupParam l1 k).or (lookupParam l2 k) := by
  unfold lookupParam
  rw [List.find?_append]
  cases List.find? (fun p => p.1 == k) l1 <;> simp

/-- An `extra` record binding none of `base`'s keys leaves their merged
values untouched: looking up such a key after the JS spread merge reads
`base`'s value. -/
lemma lookupParam_jsMerge (base extra : List (String × String)) (k : String)
    (h : lookupParam extra k = none) :
    lookupParam (jsMerge base extra) k = lookupParam base k := by
  have hfind : extra.find? (fun p => p.1 == k) = none :=
    List.find?_eq_none.mpr ((lookupParam_eq_none extra k).mp h)
  unfold jsMerge
  rw [lookupParam_append]
  have hmap : lookupParam
      (base.map (fun p => (p.1, (lookupParam extra p.1).getD p.2))) k = lookupParam base k := by
    induction base with
    | nil => rfl
    | cons p rest ih =>
        by_cases hk : (p.1 == k) = true
        · have hpk : p.1 = k := by simpa using hk
          simp [lookupParam, List.find?_cons, hk, hpk, h, hfind]
        · simp only [List.map_cons]
          unfold lookupParam
          rw [List.find?_cons_of_neg _ (by simpa using hk),
              List.find?_cons_of_neg _ (by simpa using hk)]
          exact ih
  have hfilt : lookupParam (extra.filter (fun p => (lookupParam base p.1).isNone)) k = none := by
    apply (lookupParam_eq_none _ _).mpr
    intro x hx
    exact (lookupParam_eq_none extra k).mp h x (List.mem_of_mem_filter hx)
  rw [hmap, hfilt]
  cases lookupParam base k <;> rfl

lemma buildUrl_query_all_some (b : String) (ps : List (String × String)) :
    (buildUrl b (ps.map (fun p => (p.1, some p.2)))).query = ps := by
  unfold buildUrl
  simp only
  rw [List.filterMap_map]
  have h : ((fun p : String × Option String => p.2.map (fun v => (p.1, v))) ∘
      fun p : String × String => (p.1, some p.2)) = fun p => some p := rfl
  rw [h]
  simp

lemma storeTokens_access_token (now : Int) (tokens : TokenResponse) (st : Store) :
    (storeTokens now tokens st).access_token = some tokens.access_token := by
  simp only [storeTokens, Store.setAccessToken, Store.setRefreshToken, Store.setIdToken,
    Store.setScope, Store.setExpiresAt]
  split <;> split <;> split <;> split <;> rfl

lemma storeTokens_refresh_token (now : Int) (tokens : TokenResponse) (st : Store) :
    (storeTokens now tokens st).refresh_token =
      if truthyS tokens.refresh_token then tokens.refresh_token else st.refresh_token := by
  simp only [storeTokens, Store.setAccessToken, Store.setRefreshToken, Store.setIdToken,
    Store.setScope, Store.setExpiresAt]
  rcases hrt : tokens.refresh_token with _ | rt <;>
    split <;> split <;> split <;> split <;> simp_all [truthyS]

lemma storeTokens_expires_at (now : Int) (tokens : TokenResponse) (st : Store) :
    (storeTokens now tokens st).expires_at =
      if truthyI tokens.expires_in then some (now + tokens.expires_in.getD 0 * 1000)
      else st.expires_at := by
  simp only [storeTokens, Store.setAccessToken, Store.setRefreshToken, Store.setIdToken,
    Store.setScope, Store.setExpiresAt]
  split <;> split <;> split <;> split <;> rfl

lemma truthyS_none : truthyS none = false := rfl

lemma handleCallback_no_stored_state (now : Int) (params : CallbackParams)
    (net : Except OAuth2ErrorR TokenResponse) (st : Store)
    (he : truthyS params.error = false) (hs : st.state = none) :
    handleCallback now params net st =
      { result := .error .invalidState, store := st, events := [], tokenRequests := 0 } := by
  simp [handleCallback, he, hs, truthyS_none]

/-! ### Claim theorems -/

/-- Claim C3 (confirmed): with a refresh already in flight (`refreshPromise =
some pid`), a second `refreshAccessToken()` call awaits that same promise
`pid` (hence receives the same outcome) and starts no new `performRefresh`,
so the token request count stays that of the single in-flight refresh (at
most one); the `finally` block clears the marker once the outcome is known,
after which a new call does start a fresh refresh. -/
theorem c3_refresh_dedup (st settledStore : Store) (pid fidB fidC : Nat) (now : Int)
    (net : Except OAuth2ErrorR TokenResponse) :
    refreshCallStep { store := st, refreshPromise := none } pid =
      ({ store := st, refreshPromise := some pid }, pid, true) ∧
    refreshCallStep { store := st, refreshPromise := some pid } fidB =
      ({ store := st, refreshPromise := some pid }, pid, false) ∧
    (performRefresh now net st).tokenRequests ≤ 1 ∧
    (refreshSettle { store := settledStore, refreshPromise := some pid }).refreshPromise = none ∧
    (refreshCallStep { store := settledStore, refreshPromise := none } fidC).2.2 = true := by
  refine ⟨rfl, rfl, ?_, rfl, rfl⟩
  rcases Bool.eq_false_or_eq_true (truthyS st.refresh_token) with h | h <;>
    cases net <;> simp [performRefresh, h]

/-- Claim C4 (confirmed): with a (truthy) stored refresh token and a failing
token-endpoint request, `performRefresh` clears the whole session via
`logout()` before propagating the failure, and `isAuthenticated()` is false
on the resulting storage at every later time; with no stored refresh token
the call fails with no state change at all. -/
theorem c4_refresh_failure_forces_logout (now : Int) (st : Store)
    (net : Except OAuth2ErrorR TokenResponse) :
    (∀ e : OAuth2ErrorR, truthyS st.refresh_token = true → net = .error e →
      (performRefresh now net st).store = Store.empty ∧
      (performRefresh now net st).result = .error (.exchangeFailed e) ∧
      ∀ now2 : Int, (isAuthenticated now2 (performRefresh now net st).store).1 = false) ∧
    (truthyS st.refresh_token = false →
      performRefresh now net st =
        { result := .error .noRefreshToken, store := st, events := [], tokenRequests := 0 }) := by
  constructor
  · intro e htok hnet
    subst hnet
    have hrun : performRefresh now (.error e) st =
        { result := .error (.exchangeFailed e), store := Store.empty
          events := [Event.authStateChange false], tokenRequests := 1 } := by
      simp [performRefresh, htok, logout, Store.clear, Store.empty]
    refine ⟨by rw [hrun], by rw [hrun], ?_⟩
    intro now2
    rw [hrun]
    simp [isAuthenticated, getAccessToken, truthyS, truthyI, Store.empty]
  · intro htok
    simp [performRefresh, htok]

/-- Claim C4 witness: with refresh token "R" stored and the endpoint
answering `invalid_grant`, the session is fully cleared, and with no
refresh token stored nothing changes. -/
theorem c4_refresh_failure_forces_logout_witness :
    ((performRefresh 0 (.error { error := "invalid_grant" })
        { refresh_token := some "R", access_token := some "A" }).store = Store.empty ∧
      (performRefresh 0 (.error { error := "invalid_grant" })
        { refresh_token := some "R", access_token := some "A" }).result =
        .error (.exchangeFailed { error := "invalid_grant" }) ∧
      ∀ now2 : Int, (isAuthenticated now2
        (performRefresh 0 (.error { error := "invalid_grant" })
          { refresh_token := some "R", access_token := some "A" }).store).1 = false) ∧
    performRefresh 0 (.error { error := "invalid_grant" }) { access_token := some "A" } =
      { result := .error .noRefreshToken, store := { access_token := some "A" }
        events := [], tokenRequests := 0 } :=
  ⟨(c4_refresh_failure_forces_logout 0
      { refresh_token := some "R", access_token := some "A" }
      (.error { error := "invalid_grant" })).1 { error := "invalid_grant" } rfl rfl,
   (c4_refresh_failure_forces_logout 0 { access_token := some "A" }
      (.error { error := "invalid_grant" })).2 rfl⟩

/-- Claim C5 counterexample: the state stores access token "A" together with
`expires_at = 0`, an instant in the past at call time 1000, yet
`getAccessToken` returns the token and leaves storage untouched, because the
JS truthiness test `expiresAt &&` treats the number 0 as absent. -/
theorem c5_counterexample_zero_expiry :
    (0 : Int) < 1000 ∧
    (getAccessToken 1000 { access_token := some "A", expires_at := some 0 }).1 = some "A" ∧
    (getAccessToken 1000 { access_token := some "A", expires_at := some 0 }).2.1 =
      ({ access_token := some "A", expires_at := some 0 } : Store) :=
  ⟨by norm_num, rfl, rfl⟩

/-- Claim C5 (amended): when a nonempty access token is stored together with
a nonzero `expires_at` that has passed, `getAccessToken` returns absent and
clears all session storage (full logout), emitting `onAuthStateChange(false)`. -/
theorem c5_lazy_expiry_forces_logout (now e : Int) (t : String) (st : Store)
    (ht : st.access_token = some t) (htne : t ≠ "")
    (he : st.expires_at = some e) (hez : e ≠ 0) (hpast : e ≤ now) :
    getAccessToken now st = (none, Store.empty, [Event.authStateChange false]) := by
  have h1 : truthyS (some t) = true := by simp [truthyS, htne]
  have h2 : truthyI (some e) = true := by simp [truthyI, hez]
  simp [getAccessToken, ht, he, h1, h2, hpast, logout, Store.clear, Store.empty]

/-- Claim C5 witness: token "A" with expiry 500 read at time 1000 is cleared. -/
theorem c5_lazy_expiry_forces_logout_witness :
    getAccessToken 1000 { access_token := some "A", expires_at := some 500 } =
      (none, Store.empty, [Event.authStateChange false]) :=
  c5_lazy_expiry_forces_logout 1000 500 "A"
    { access_token := some "A", expires_at := some 500 }
    rfl (by decide) rfl (by decide) (by norm_num)

/-- Claim C6 counterexample: a token response that includes `refresh_token`
with the empty-string value does NOT overwrite the stored refresh token,
because the JS truthiness test `if (tokens.refresh_token)` is false on "". -/
theorem c6_counterexample_empty_refresh_token :
    ({ access_token := "A2", refresh_token := some "" } : TokenResponse).refresh_token.isSome
      = true ∧
    (storeTokens 0 { access_token := "A2", refresh_token := some "" }
        { refresh_token := some "OLD" }).refresh_token = some "OLD" :=
  ⟨rfl, rfl⟩

/-- Claim C6 (amended): a token response whose `refresh_token` is omitted or
falsy (the empty string) leaves the previously stored refresh token
unchanged; a response carrying a nonempty `refresh_token` overwrites it. -/
theorem c6_refresh_token_retention (now : Int) (tokens : TokenResponse) (st : Store) :
    (truthyS tokens.refresh_token = false →
      (storeTokens now tokens st).refresh_token = st.refresh_token) ∧
    (∀ rt : String, tokens.refresh_token = some rt → rt ≠ "" →
      (storeTokens now tokens st).refresh_token = some rt) := by
  constructor
  · intro h
    rw [storeTokens_refresh_token, h]
    simp
  · intro rt hrt hne
    have ht : truthyS tokens.refresh_token = true := by simp [truthyS, hrt, hne]
    rw [storeTokens_refresh_token, ht, hrt]
    simp

/-- Claim C6 witness: omission retains "OLD"; a nonempty "NEW" overwrites. -/
theorem c6_refresh_token_retention_witness :
    (storeTokens 0 { access_token := "A2" } { refresh_token := some "OLD" }).refresh_token
      = some "OLD" ∧
    (storeTokens 0 { access_token := "A2", refresh_token := some "NEW" }
        { refresh_token := some "OLD" }).refresh_token = some "NEW" :=
  ⟨(c6_refresh_token_retention 0 { access_token := "A2" }
      { refresh_token := some "OLD" }).1 rfl,
   (c6_refresh_token_retention 0 { access_token := "A2", refresh_token := some "NEW" }
      { refresh_token := some "OLD" }).2 "NEW" rfl (by decide)⟩

/-- Claim C8 counterexample: a response without `expires_in` sets a new
access token "A2" but leaves the stale `expires_at = 5000` of an earlier
response in storage, violating the stated invariant. -/
theorem c8_counterexample_stale_expiry :
    ({ access_token := "A2" } : TokenResponse).expires_in = none ∧
    (storeTokens 9999 { access_token := "A2" } ({ expires_at := some 5000 } : Store)).access_token
      = some "A2" ∧
    (storeTokens 9999 { access_token := "A2" } ({ expires_at := some 5000 } : Store)).expires_at
      = some 5000 :=
  ⟨rfl, rfl, rfl⟩

/-- Claim C8 (amended): a response with a truthy `expires_in` stores
`expires_at = now + expires_in * 1000`; a response with `expires_in` omitted
or 0 leaves whatever `expires_at` was previously stored in place — possibly
a stale expiry from an earlier response. -/
theorem c8_expiry_arithmetic (now : Int) (tokens : TokenResponse) (st : Store) :
    (∀ e : Int, tokens.expires_in = some e → e ≠ 0 →
      (storeTokens now tokens st).expires_at = some (now + e * 1000)) ∧
    (truthyI tokens.expires_in = false →
      (storeTokens now tokens st).expires_at = st.expires_at) := by
  constructor
  · intro e he hez
    have ht : truthyI tokens.expires_in = true := by simp [truthyI, he, hez]
    rw [storeTokens_expires_at, ht, he]
    simp
  · intro h
    rw [storeTokens_expires_at, h]
    simp

/-- Claim C8 witness: `expires_in = 3600` at time 17 gives expiry 3600017;
a response without `expires_in` leaves the old expiry 5000. -/
theorem c8_expiry_arithmetic_witness :
    (storeTokens 17 { access_token := "A1", expires_in := some 3600 } Store.empty).expires_at
      = some 3600017 ∧
    (storeTokens 17 { access_token := "A1" } ({ expires_at := some 5000 } : Store)).expires_at
      = some 5000 :=
  ⟨by
    have h := (c8_expiry_arithmetic 17 { access_token := "A1", expires_in := some 3600 }
      Store.empty).1 3600 rfl (by decide)
    simpa using h,
   (c8_expiry_arithmetic 17 { access_token := "A1" } ({ expires_at := some 5000 } : Store)).2 rfl⟩

/-- Claim C9 counterexample: with empty storage the session is already
unauthenticated, yet `logout()` still invokes `onAuthStateChange(false)` —
the callback does not fire only on transitions out of the authenticated
state. -/
theorem c9_counterexample_logout_when_unauthenticated :
    (isAuthenticated 0 Store.empty).1 = false ∧
    (logout Store.empty).2 = [Event.authStateChange false] :=
  ⟨rfl, rfl⟩

/-- Claim C9 (amended): `onAuthStateChange(true)` fires on every successful
code exchange and `onAuthStateChange(false)` on every `logout()` invocation
(explicit logout, lazy-expiry detection, refresh failure) regardless of the
previous state; `onTokenRefresh` fires exactly on successful refreshes and
never during a code exchange. -/
theorem c9_callback_invocation_points (now : Int) (st : Store) :
    (logout st).2 = [Event.authStateChange false] ∧
    (∀ tokens : TokenResponse,
      (exchangeCodeForToken now (.ok tokens) st).2 = [Event.authStateChange true]) ∧
    (∀ e : OAuth2ErrorR, (exchangeCodeForToken now (.error e) st).2 = []) ∧
    (∀ tokens : TokenResponse, truthyS st.refresh_token = true →
      (performRefresh now (.ok tokens) st).events = [Event.tokenRefresh tokens]) ∧
    (∀ e : OAuth2ErrorR, truthyS st.refresh_token = true →
      (performRefresh now (.error e) st).events = [Event.authStateChange false]) ∧
    (truthyS st.refresh_token = false →
      ∀ net, (performRefresh now net st).events = []) := by
  refine ⟨rfl, fun _ => rfl, fun _ => rfl, ?_, ?_, ?_⟩
  · intro tokens h
    simp [performRefresh, h]
  · intro e h
    simp [performRefresh, h, logout]
  · intro h net
    simp [performRefresh, h]

/-- Claim C9 witness: a successful refresh with token "R" stored emits
exactly one `onTokenRefresh`, and a failed one emits `onAuthStateChange
false`. -/
theorem c9_callback_invocation_points_witness :
    (performRefresh 0 (.ok { access_token := "A1" })
        ({ refresh_token := some "R" } : Store)).events =
      [Event.tokenRefresh { access_token := "A1" }] ∧
    (performRefresh 0 (.error { error := "invalid_grant" })
        ({ refresh_token := some "R" } : Store)).events =
      [Event.authStateChange false] :=
  ⟨(c9_callback_invocation_points 0 ({ refresh_token := some "R" } : Store)).2.2.2.1
      { access_token := "A1" } rfl,
   (c9_callback_invocation_points 0 ({ refresh_token := some "R" } : Store)).2.2.2.2.1
      { error := "invalid_grant" } rfl⟩

/-- Claim C10 counterexample: the empty string is a stored access token with
no stored expiry, `getAccessToken` returns it, yet `isAuthenticated()` is
false because `!!""` is false in JS. -/
theorem c10_counterexample_empty_token :
    ({ access_token := some "" } : Store).access_token.isSome = true ∧
    ({ access_token := some "" } : Store).expires_at = none ∧
    (getAccessToken 0 { access_token := some "" }).1 = some "" ∧
    (isAuthenticated 0 { access_token := some "" }).1 = false :=
  ⟨rfl, rfl, rfl, rfl⟩

/-- Claim C10 (amended): with an access token stored and no `expires_at`
stored, `getAccessToken` returns the stored token at every time with no
storage change and no callback; when that token is furthermore nonempty,
`isAuthenticated()` is true. -/
theorem c10_no_expiry_session_stable (now : Int) (t : String) (st : Store)
    (ht : st.access_token = some t) (he : st.expires_at = none) :
    getAccessToken now st = (some t, st, []) ∧
    (t ≠ "" → (isAuthenticated now st).1 = true) := by
  have hg : getAccessToken now st = (some t, st, []) := by
    simp [getAccessToken, ht, he, truthyI]
  refine ⟨hg, fun hne => ?_⟩
  simp [isAuthenticated, hg, truthyS, hne]

/-- Claim C1 counterexample: calling `authorize` with the extra parameter
`state=evil` produces a URL whose `state` is "evil", while the state
persisted in storage is the freshly generated 32-character string — the
caller-supplied parameters, merged last, DO override the `state` parameter. -/
theorem c1_counterexample_extra_overrides_state :
    lookupParam (authorize
        { clientId := "c1", authorizationEndpoint := "https://a/authorize",
          tokenEndpoint := "https://a/token", redirectUri := "https://app/cb" }
        [("state", "evil")] (fun _ => 0) (fun _ => 0) (fun _ => List.range 32)
        Store.empty).url.query "state" = some "evil" ∧
    (authorize
        { clientId := "c1", authorizationEndpoint := "https://a/authorize",
          tokenEndpoint := "https://a/token", redirectUri := "https://app/cb" }
        [("state", "evil")] (fun _ => 0) (fun _ => 0) (fun _ => List.range 32)
        Store.empty).store.state = some "AAAAAAAAAAAAAAAAAAAAAAAAAAAAAAAA" ∧
    ("evil" : String) ≠ "AAAAAAAAAAAAAAAAAAAAAAAAAAAAAAAA" :=
  ⟨rfl, rfl, by decide⟩

/-- Claim C1 (amended): provided the caller-supplied extra parameters bind
none of the security-relevant keys (`response_type`, `client_id`, `state`,
`code_challenge`, `code_challenge_method`), the authorization URL carries
`response_type=code`, the configured `client_id`,
`code_challenge_method=S256`, a `state` equal to the freshly generated state
persisted in storage, and a `code_challenge` equal to the challenge derived
from the persisted verifier. (Extra parameters are merged last and can
override any of these, as the counterexample shows.) -/
theorem c1_authorize_url_protected_params (cfg : Config) (extra : List (String × String))
    (rndV rndS : Nat → Nat) (sha256Fn : String → List Nat) (st : Store)
    (hrt : lookupParam extra "response_type" = none)
    (hcid : lookupParam extra "client_id" = none)
    (hst : lookupParam extra "state" = none)
    (hch : lookupParam extra "code_challenge" = none)
    (hm : lookupParam extra "code_challenge_method" = none) :
    lookupParam (authorize cfg extra rndV rndS sha256Fn st).url.query "response_type" =
      some "code" ∧
    lookupParam (authorize cfg extra rndV rndS sha256Fn st).url.query "client_id" =
      some cfg.clientId ∧
    lookupParam (authorize cfg extra rndV rndS sha256Fn st).url.query "code_challenge_method" =
      some "S256" ∧
    (authorize cfg extra rndV rndS sha256Fn st).store.state =
      some (generateRandomString 32 rndS) ∧
    lookupParam (authorize cfg extra rndV rndS sha256Fn st).url.query "state" =
      some (generateRandomString 32 rndS) ∧
    (authorize cfg extra rndV rndS sha256Fn st).store.code_verifier =
      some (generateRandomString 128 rndV) ∧
    lookupParam (authorize cfg extra rndV rndS sha256Fn st).url.query "code_challenge" =
      some (base64UrlEncode (sha256Fn (generateRandomString 128 rndV))) := by
  have hq : (authorize cfg extra rndV rndS sha256Fn st).url.query =
      jsMerge
        [("response_type", "code"),
         ("client_id", cfg.clientId),
         ("redirect_uri", cfg.redirectUri),
         ("scope", cfg.scope),
         ("state", generateRandomString 32 rndS),
         ("code_challenge", base64UrlEncode (sha256Fn (generateRandomString 128 rndV))),
         ("code_challenge_method", "S256")]
        extra :=
    buildUrl_query_all_some _ _
  refine ⟨?_, ?_, ?_, rfl, ?_, rfl, ?_⟩ <;>
    rw [hq, lookupParam_jsMerge _ _ _ (by assumption)] <;> rfl

/-- Claim C1 witness: with extra parameter `prompt=consent` (not a protected
key), the built URL carries the contracted values and the persisted state. -/
theorem c1_authorize_url_protected_params_witness :
    lookupParam (authorize
        { clientId := "c1", authorizationEndpoint := "https://a/authorize",
          tokenEndpoint := "https://a/token", redirectUri := "https://app/cb" }
        [("prompt", "consent")] (fun _ => 0) (fun _ => 0) (fun _ => List.range 32)
        Store.empty).url.query "client_id" = some "c1" ∧
    lookupParam (authorize
        { clientId := "c1", authorizationEndpoint := "https://a/authorize",
          tokenEndpoint := "https://a/token", redirectUri := "https://app/cb" }
        [("prompt", "consent")] (fun _ => 0) (fun _ => 0) (fun _ => List.range 32)
        Store.empty).url.query "response_type" = some "code" ∧
    lookupParam (authorize
        { clientId := "c1", authorizationEndpoint := "https://a/authorize",
          tokenEndpoint := "https://a/token", redirectUri := "https://app/cb" }
        [("prompt", "consent")] (fun _ => 0) (fun _ => 0) (fun _ => List.range 32)
        Store.empty).url.query "code_challenge_method" = some "S256" ∧
    lookupParam (authorize
        { clientId := "c1", authorizationEndpoint := "https://a/authorize",
          tokenEndpoint := "https://a/token", redirectUri := "https://app/cb" }
        [("prompt", "consent")] (fun _ => 0) (fun _ => 0) (fun _ => List.range 32)
        Store.empty).url.query "state" = some "AAAAAAAAAAAAAAAAAAAAAAAAAAAAAAAA" ∧
    (authorize
        { clientId := "c1", authorizationEndpoint := "https://a/authorize",
          tokenEndpoint := "https://a/token", redirectUri := "https://app/cb" }
        [("prompt", "consent")] (fun _ => 0) (fun _ => 0) (fun _ => List.range 32)
        Store.empty).store.state = some "AAAAAAAAAAAAAAAAAAAAAAAAAAAAAAAA" := by
  have h := c1_authorize_url_protected_params
    { clientId := "c1", authorizationEndpoint := "https://a/authorize",
      tokenEndpoint := "https://a/token", redirectUri := "https://app/cb" }
    [("prompt", "consent")] (fun _ => 0) (fun _ => 0) (fun _ => List.range 32)
    Store.empty rfl rfl rfl rfl rfl
  exact ⟨h.2.1, h.1, h.2.2.1, h.2.2.2.2.1.trans rfl, h.2.2.2.1.trans rfl⟩

/-- Claim C2 counterexample: a failing callback does NOT clear the transient
flow state. An `error=access_denied` callback leaves verifier "V1" and state
"S1" in storage; and a callback whose token exchange failed, retried with
the same URL, passes state validation again and sends a second
token-exchange request. -/
theorem c2_counterexample_failure_keeps_flow_state :
    (handleCallback 0 { error := some "access_denied" } (.ok { access_token := "A1" })
        { state := some "S1", code_verifier := some "V1" }).result =
      .error (.oauthError { error := "access_denied" }) ∧
    (handleCallback 0 { error := some "access_denied" } (.ok { access_token := "A1" })
        { state := some "S1", code_verifier := some "V1" }).store.code_verifier = some "V1" ∧
    (handleCallback 0 { error := some "access_denied" } (.ok { access_token := "A1" })
        { state := some "S1", code_verifier := some "V1" }).store.state = some "S1" ∧
    (handleCallback 0 { code := some "XYZ", state := some "S1" }
        (.error { error := "server_error" })
        (handleCallback 0 { code := some "XYZ", state := some "S1" }
            (.error { error := "server_error" })
            { state := some "S1", code_verifier := some "V1" }).store).tokenRequests = 1 :=
  ⟨rfl, rfl, rfl, rfl⟩

/-- Claim C2 (amended): after a SUCCESSFUL `handleCallback`, the stored code
verifier and csrfState are removed, and a second call with the same
parameters fails with the state-mismatch error and sends no token request.
(After a failed callback the flow state is retained, as the counterexample
shows.) -/
theorem c2_success_clears_flow_state_blocks_replay
    (now now2 : Int) (params : CallbackParams)
    (net net2 : Except OAuth2ErrorR TokenResponse) (st : Store)
    (hok : (handleCallback now params net st).result = .ok ()) :
    (handleCallback now params net st).store.code_verifier = none ∧
    (handleCallback now params net st).store.state = none ∧
    handleCallback now2 params net2 (handleCallback now params net st).store =
      { result := .error .invalidState
        store := (handleCallback now params net st).store
        events := [], tokenRequests := 0 } := by
  by_cases h1 : truthyS params.error = true
  · unfold handleCallback at hok
    rw [if_pos h1] at hok
    exact absurd hok (by simp)
  by_cases h2 : (!truthyS st.state || !validateState params.state (st.state.getD "")) = true
  · unfold handleCallback at hok
    rw [if_neg h1, if_pos h2] at hok
    exact absurd hok (by simp)
  by_cases h3 : (!truthyS params.code || !truthyS st.code_verifier) = true
  · unfold handleCallback at hok
    rw [if_neg h1, if_neg h2, if_pos h3] at hok
    exact absurd hok (by simp)
  cases hnet : net with
  | error e =>
      rw [hnet] at hok
      unfold handleCallback at hok
      rw [if_neg h1, if_neg h2, if_neg h3] at hok
      simp [exchangeCodeForToken] at hok
  | ok tokens =>
      subst hnet
      have hstore : (handleCallback now params (.ok tokens) st).store =
          (storeTokens now tokens st).clearTemporary := by
        unfold handleCallback
        rw [if_neg h1, if_neg h2, if_neg h3]
        rfl
      have hstate : (handleCallback now params (.ok tokens) st).store.state = none := by
        rw [hstore]; rfl
      have hrep := handleCallback_no_stored_state now2 params net2
        (handleCallback now params (.ok tokens) st).store (by simpa using h1) hstate
      exact ⟨by rw [hstore]; rfl, hstate, hrep⟩

/-- Claim C2 witness: a concrete successful callback clears verifier and
state, and its replay fails with the state-mismatch error without a request. -/
theorem c2_success_clears_flow_state_blocks_replay_witness :
    (handleCallback 0 { code := some "XYZ", state := some "S1" }
        (.ok { access_token := "A1" })
        { state := some "S1", code_verifier := some "V1" }).store.code_verifier = none ∧
    (handleCallback 0 { code := some "XYZ", state := some "S1" }
        (.ok { access_token := "A1" })
        { state := some "S1", code_verifier := some "V1" }).store.state = none ∧
    handleCallback 1 { code := some "XYZ", state := some "S1" }
        (.ok { access_token := "A1" })
        (handleCallback 0 { code := some "XYZ", state := some "S1" }
            (.ok { access_token := "A1" })
            { state := some "S1", code_verifier := some "V1" }).store =
      { result := .error .invalidState
        store := (handleCallback 0 { code := some "XYZ", state := some "S1" }
            (.ok { access_token := "A1" })
            { state := some "S1", code_verifier := some "V1" }).store
        events := [], tokenRequests := 0 } :=
  c2_success_clears_flow_state_blocks_replay 0 1
    { code := some "XYZ", state := some "S1" }
    (.ok { access_token := "A1" }) (.ok { access_token := "A1" })
    { state := some "S1", code_verifier := some "V1" } rfl

/-- Claim C7 (confirmed): for every platform random source, `authorize`'s
PKCE generation yields a verifier of length 128 (within [43, 128]) drawn
entirely from the unreserved character set, and — for any platform SHA-256
whose output is bytes — a challenge equal to the direct unpadded base64url
encoding of that digest, containing no padding character. -/
theorem c7_pkce_verifier_and_challenge (rnd : Nat → Nat) (sha256Fn : String → List Nat) :
    43 ≤ (generatePKCEParams rnd sha256Fn).1.length ∧
    (generatePKCEParams rnd sha256Fn).1.length ≤ 128 ∧
    (∀ c ∈ (generatePKCEParams rnd sha256Fn).1.toList, isUnreserved c = true) ∧
    ((∀ b ∈ sha256Fn (generatePKCEParams rnd sha256Fn).1, b < 256) →
      (generatePKCEParams rnd sha256Fn).2 =
        String.mk (base64UrlNoPad (sha256Fn (generatePKCEParams rnd sha256Fn).1)) ∧
      '=' ∉ (generatePKCEParams rnd sha256Fn).2.toList) := by
  have hlen : (generatePKCEParams rnd sha256Fn).1.length = 128 := by
    show (generateRandomChars 128 rnd).length = 128
    exact generateRandomChars_length 128 rnd
  refine ⟨by rw [hlen]; norm_num, by rw [hlen], ?_, ?_⟩
  · show ∀ c ∈ generateRandomChars 128 rnd, isUnreserved c = true
    exact generateRandomChars_unreserved 128 rnd
  · intro hbytes
    constructor
    · show String.mk (base64UrlEncodeChars (sha256Fn (generatePKCEParams rnd sha256Fn).1)) =
        String.mk (base64UrlNoPad (sha256Fn (generatePKCEParams rnd sha256Fn).1))
      rw [base64Url_refines _ hbytes]
    · show '=' ∉ base64UrlEncodeChars (sha256Fn (generatePKCEParams rnd sha256Fn).1)
      exact base64UrlEncodeChars_no_pad _

/-- Claim C7 witness: with the all-zero random source and a digest of the
bytes 0..31, the challenge equals the direct base64url encoding. -/
theorem c7_pkce_verifier_and_challenge_witness :
    (∀ b ∈ List.range 32, b < 256) ∧
    (generatePKCEParams (fun _ => 0) (fun _ => List.range 32)).2 =
      String.mk (base64UrlNoPad (List.range 32)) := by
  have hb : ∀ b ∈ List.range 32, b < 256 := by decide
  exact ⟨hb,
    ((c7_pkce_verifier_and_challenge (fun _ => 0) (fun _ => List.range 32)).2.2.2 hb).1⟩

/-- Claim C10 witness: token "A" without expiry is returned unchanged at
time 999999 and the session counts as authenticated. -/
theorem c10_no_expiry_session_stable_witness :
    getAccessToken 999999 ({ access_token := some "A" } : Store) =
      (some "A", ({ access_token := some "A" } : Store), []) ∧
    (isAuthenticated 999999 ({ access_token := some "A" } : Store)).1 = true :=
  ⟨(c10_no_expiry_session_stable 999999 "A" ({ access_token := some "A" } : Store)
      rfl rfl).1,
   (c10_no_expiry_session_stable 999999 "A" ({ access_token := some "A" } : Store)
      rfl rfl).2 (by decide)⟩
